import Mathlib

/-!
Verification development for the healthcare-navigator repository.

The embedded code is the provider search and ranking core:
`src/app/services/provider_service.py` (class ProviderService),
`src/app/services/ai_service.py` (class AIService), and the
`ProviderResponse` schema of `src/app/schemas.py`.

Modelling conventions:
* Python floats are modelled as `ℚ`; `math.log` (the only transcendental
  operation reached by the embedded code) is passed in as an explicit
  function parameter `lg`, so every definition stays executable.
* Python's `round(x, n)` (banker's rounding on floats) is modelled as
  rounding to the nearest multiple of `10^-n`; the tie-breaking direction
  (half-even in Python, half-up here) is irrelevant to every property
  proved below.
* `x or d` on numbers (Python truthiness) maps `None` and `0` to `d`.
* The data store is a parameter: a function from the built condition list
  to `Except`-wrapped rows, mirroring that DRG filtering and rating
  averaging happen inside the SQL query.
* Python's `hash` (process-salted for strings) is a parameter `h`.
* String helpers (`lower`, `strip`, `split`, `isdigit`, substring and
  `ILIKE` matching) are modelled on the ASCII fragment actually used by
  the code and its data.
-/

namespace HealthNav

/-! ## Python string primitives -/

/-- Python whitespace characters (the ASCII ones `str.strip`/`str.split` use). -/
def isPyWs (c : Char) : Bool :=
  c = ' ' || c = '\t' || c = '\n' || c = '\r' || c = '\x0b' || c = '\x0c'

/-- Python `str.lower()` (ASCII). -/
def strLower (s : String) : String := ⟨s.data.map Char.toLower⟩

/-- Python `str.upper()` (ASCII). -/
def strUpper (s : String) : String := ⟨s.data.map Char.toUpper⟩

/-- Python `str.strip()`: drop leading and trailing whitespace. -/
def pyStrip (s : String) : String :=
  ⟨((s.data.dropWhile isPyWs).reverse.dropWhile isPyWs).reverse⟩

/-- Helper for Python `str.split()`: accumulate the current token (reversed). -/
def pySplitAux : List Char → List Char → List String
  | [], acc => if acc.isEmpty then [] else [⟨acc.reverse⟩]
  | c :: t, acc =>
    if isPyWs c then
      if acc.isEmpty then pySplitAux t [] else ⟨acc.reverse⟩ :: pySplitAux t []
    else pySplitAux t (c :: acc)

/-- Python `str.split()` with no argument: split on whitespace runs, no empties. -/
def pySplit (s : String) : List String := pySplitAux s.data []

/-- Python `str.isdigit()` (ASCII digits; true only on non-empty all-digit strings). -/
def isdigitB (s : String) : Bool := !s.data.isEmpty && s.data.all Char.isDigit

/-- Substring test on character lists: does `p` occur contiguously in the list? -/
def listContains (p : List Char) : List Char → Bool
  | [] => p.isEmpty
  | c :: t => p.isPrefixOf (c :: t) || listContains p t

/-- Python `needle in hay` on strings. -/
def strContains (hay needle : String) : Bool := listContains needle.data hay.data

/-- Python `hay.startswith(pre)`. -/
def strStartsWith (hay pre : String) : Bool := pre.data.isPrefixOf hay.data

/-- Python `s[:n]`. -/
def strTake (s : String) (n : ℕ) : String := ⟨s.data.take n⟩

/-- Python `x or d` for a float `x`: `d` when `x` is falsy (`0`), else `x`. -/
def pyOrQ (x d : ℚ) : ℚ := if x = 0 then d else x

/-- Python `x or d` for an optional float `x`: `d` when `x` is `None` or `0`. -/
def pyOrOptQ (x : Option ℚ) (d : ℚ) : ℚ :=
  match x with
  | none => d
  | some v => if v = 0 then d else v

/-- Python `round(x, 2)` on our rational model: nearest multiple of `1/100`. -/
def round2 (q : ℚ) : ℚ := ((round (100 * q) : ℤ) : ℚ) / 100

/-- Python `round(x, 1)` on our rational model: nearest multiple of `1/10`. -/
def round1 (q : ℚ) : ℚ := ((round (10 * q) : ℤ) : ℚ) / 10

/-! ## Data model

`ProviderRow` embeds the ORM model `Provider` of `src/app/models.py`
(the columns read by the search path).  `total_discharges` is `ℕ` because
of the model's `CheckConstraint('total_discharges >= 0')`; coordinates are
nullable columns, and the monetary columns are kept optional because the
service code guards each read with `or 0.0`. -/

structure ProviderRow where
  provider_id : String
  provider_name : String
  provider_city : String
  provider_state : String
  provider_zip_code : String
  ms_drg_definition : String
  total_discharges : Option ℕ
  average_covered_charges : Option ℚ
  average_total_payments : Option ℚ
  average_medicare_payments : Option ℚ
  latitude : Option ℚ
  longitude : Option ℚ
deriving Repr, DecidableEq

/-- The `ProviderResponse` pydantic schema of `src/app/schemas.py` (the fields
populated by `search_providers`; `value_score`, `cost_rank` and `rating_rank`
are never set by the embedded code paths and are omitted). -/
structure ProviderResponse where
  provider_id : String
  provider_name : String
  provider_city : String
  provider_state : String
  provider_zip_code : String
  ms_drg_definition : String
  total_discharges : ℕ
  average_covered_charges : ℚ
  average_total_payments : ℚ
  average_medicare_payments : ℚ
  average_rating : Option ℚ
  distance_km : Option ℚ
deriving Repr, DecidableEq

/-! ## ProviderService: static tables -/

/-- `ProviderService.ZIP_COORDINATES` (provider_service.py lines 18-33). -/
def ZIP_COORDINATES : List (String × ℚ × ℚ) := [
  ("10001", 40.7505, -73.9934), ("10002", 40.7156, -73.9877), ("10003", 40.7318, -73.9884),
  ("10004", 40.6892, -73.9823), ("10005", 40.7062, -74.0087), ("10006", 40.7093, -74.0132),
  ("10007", 40.7133, -74.0070), ("10009", 40.7264, -73.9786), ("10010", 40.7392, -73.9817),
  ("10011", 40.7403, -73.9965), ("10012", 40.7258, -73.9986), ("10013", 40.7197, -74.0026),
  ("10014", 40.7342, -74.0063), ("10016", 40.7453, -73.9781), ("10017", 40.7520, -73.9717),
  ("10018", 40.7549, -73.9925), ("10019", 40.7663, -73.9896), ("10021", 40.7697, -73.9540),
  ("10022", 40.7590, -73.9719), ("10023", 40.7756, -73.9822), ("10024", 40.7876, -73.9754),
  ("10025", 40.7982, -73.9665), ("10026", 40.8020, -73.9532), ("10027", 40.8115, -73.9534),
  ("10028", 40.7774, -73.9533), ("10029", 40.7917, -73.9439), ("10030", 40.8200, -73.9425),
  ("10031", 40.8251, -73.9490), ("10032", 40.8386, -73.9426), ("10033", 40.8501, -73.9344),
  ("10034", 40.8677, -73.9212), ("10035", 40.7957, -73.9389), ("10036", 40.7590, -73.9845),
  ("10037", 40.8142, -73.9370), ("10038", 40.7095, -74.0021), ("10039", 40.8203, -73.9370),
  ("10040", 40.8677, -73.9212), ("10065", 40.7641, -73.9630), ("10075", 40.7733, -73.9565),
  ("10128", 40.7816, -73.9509), ("10280", 40.7081, -74.0173)]

/-- `ProviderService.PROCEDURE_SYNONYMS` (provider_service.py lines 36-49). -/
def PROCEDURE_SYNONYMS : List (String × List String) := [
  ("knee", ["knee", "joint", "orthopedic", "replacement", "arthroplasty"]),
  ("hip", ["hip", "joint", "replacement", "orthopedic", "arthroplasty"]),
  ("heart", ["heart", "cardiac", "cardiovascular", "coronary", "cardiology"]),
  ("cardiac", ["heart", "cardiac", "cardiovascular", "coronary", "cardiology"]),
  ("surgery", ["surgery", "surgical", "procedure", "operation"]),
  ("emergency", ["emergency", "urgent", "trauma", "critical"]),
  ("kidney", ["kidney", "renal", "nephrology", "dialysis"]),
  ("liver", ["liver", "hepatic", "hepatology"]),
  ("lung", ["lung", "pulmonary", "respiratory", "pneumonia"]),
  ("brain", ["brain", "neurological", "neurology", "cranial"]),
  ("spine", ["spine", "spinal", "vertebral", "back"]),
  ("cancer", ["cancer", "oncology", "tumor", "malignancy", "chemotherapy"])]

/-- Dictionary lookup `PROCEDURE_SYNONYMS[word]` (with the `word in` key test). -/
def synLookup (w : String) : Option (List String) :=
  (PROCEDURE_SYNONYMS.find? (fun e => e.1 == w)).map (·.2)

/-- Lookup `ZIP_COORDINATES[zip_code]` (with the `zip_code in` key test). -/
def zipTableLookup (z : String) : Option (ℚ × ℚ) :=
  (ZIP_COORDINATES.find? (fun e => e.1 == z)).map (·.2)

/-! ## ProviderService._build_drg_conditions -/

/-- A text-match condition on `Provider.ms_drg_definition` as built by
`_build_drg_conditions`: `ilikeStart p` is `.ilike(f"p%")` (the two
delimiter patterns `f"{drg} %"` and `f"{drg}-%"`), `ilikeAny w` is
`.ilike(f"%w%")`, and `containsRaw s` is `.contains(s)` (case-sensitive
`LIKE '%s%'`). -/
inductive DrgCond where
  | ilikeStart (p : String)
  | ilikeAny (w : String)
  | containsRaw (s : String)
deriving Repr, DecidableEq

/-- SQL semantics of one condition against a stored procedure description. -/
def condMatches (desc : String) : DrgCond → Bool
  | .ilikeStart p => strStartsWith (strLower desc) (strLower p)
  | .ilikeAny w => strContains (strLower desc) (strLower w)
  | .containsRaw s => strContains desc s

/-- `ProviderService._build_drg_conditions` (provider_service.py lines 128-156). -/
def build_drg_conditions (drg : String) : List DrgCond :=
  let drg_lower := pyStrip (strLower drg)
  if isdigitB drg then
    [.ilikeStart (drg ++ " "), .ilikeStart (drg ++ "-"), .containsRaw drg]
  else
    (pySplit drg_lower).flatMap (fun word =>
      if word.length > 2 then
        [DrgCond.ilikeAny word]
          ++ (match synLookup word with
              | some syns => syns.map DrgCond.ilikeAny
              | none => [])
          ++ (if word.length > 4 then [DrgCond.ilikeAny (strTake word 4)] else [])
      else [])

/-! ## ProviderService._calculate_composite_score

The four component scores mirror provider_service.py lines 166-190.
`lg` stands for `math.log`; the function's `try`/`except` is unreachable
here because the divisor is at least `1000` and `volume + 1 ≥ 1`. -/

/-- `cost_score = 1000000 / max(average_covered_charges or 50000, 1000)`. -/
def cost_score (charges : ℚ) : ℚ := 1000000 / max (pyOrQ charges 50000) 1000

/-- `rating_score = (average_rating or 5.0) * 15`. -/
def rating_score (r : Option ℚ) : ℚ := pyOrOptQ r 5 * 15

/-- `distance_score = max(0, 100 - (distance_km or 0) * 1.5)`. -/
def distance_score (d : Option ℚ) : ℚ := max 0 (100 - pyOrOptQ d 0 * 1.5)

/-- `volume_score = min(log(volume + 1) * 10, 50)` with `volume = total_discharges or 0`. -/
def volume_score (lg : ℕ → ℚ) (v : ℕ) : ℚ := min (lg (v + 1) * 10) 50

/-- `ProviderService._calculate_composite_score` (provider_service.py lines 158-196). -/
def calculate_composite_score (lg : ℕ → ℚ) (p : ProviderResponse) : ℚ :=
  cost_score p.average_covered_charges * 0.4
    + rating_score p.average_rating * 0.35
    + distance_score p.distance_km * 0.15
    + volume_score lg p.total_discharges * 0.1

/-! ## ProviderService._get_zip_coordinates -/

/-- Jitter term `hash(zip_code) % m - m / 2` used by the regional fallbacks
(`m` is 100 for the named regions and 200 for the final default). -/
def hashJitter (h : String → ℤ) (zip : String) (m : ℤ) : ℚ :=
  (((h zip).emod m - m / 2 : ℤ) : ℚ)

/-- The regional-heuristic tail of `_get_zip_coordinates`
(provider_service.py lines 221-233). -/
def regionalFallback (h : String → ℤ) (zip : String) : ℚ × ℚ :=
  if strStartsWith zip "10" then
    (40.7128 + hashJitter h zip 100 * 0.002, -74.0060 + hashJitter h zip 100 * 0.002)
  else if strStartsWith zip "11" then
    (40.7891 + hashJitter h zip 100 * 0.003, -73.1350 + hashJitter h zip 100 * 0.003)
  else if strStartsWith zip "12" then
    (42.6526 + hashJitter h zip 100 * 0.002, -73.7562 + hashJitter h zip 100 * 0.002)
  else if strStartsWith zip "13" then
    (43.0481 + hashJitter h zip 100 * 0.002, -76.1474 + hashJitter h zip 100 * 0.002)
  else if strStartsWith zip "14" then
    (43.0481 + hashJitter h zip 100 * 0.002, -77.6088 + hashJitter h zip 100 * 0.002)
  else
    (42.9538 + hashJitter h zip 200 * 0.02, -75.5268 + hashJitter h zip 200 * 0.02)

/-- `ProviderService._get_zip_coordinates` (provider_service.py lines 198-233).
`dbzip` models the `SELECT latitude, longitude ... WHERE provider_zip_code = zip
LIMIT 1` query; a database exception is equivalent to `none` because the inner
`try`/`except` logs and falls through to the regional heuristic. -/
def get_zip_coordinates (h : String → ℤ) (dbzip : String → Option (ℚ × ℚ))
    (zip : String) : ℚ × ℚ :=
  match zipTableLookup zip with
  | some c => c
  | none =>
    match dbzip zip with
    | some (la, lo) =>
      if la ≠ 0 ∧ lo ≠ 0 then (la, lo) else regionalFallback h zip
    | none => regionalFallback h zip

/-! ## ProviderService.search_providers -/

/-- Lines 66-69 of search_providers: resolve the center, with the NYC default
when the resolved coordinates are falsy. -/
def searchCenter (h : String → ℤ) (dbzip : String → Option (ℚ × ℚ))
    (zip : String) : ℚ × ℚ :=
  let c := get_zip_coordinates h dbzip zip
  if c.1 = 0 ∨ c.2 = 0 then (40.7128, -74.0060) else c

/-- Truthiness of an optional float (`if provider.latitude and ...`). -/
def truthyF : Option ℚ → Bool
  | none => false
  | some x => x != 0

/-- Construction of the `ProviderResponse` (search_providers lines 101-114,
composed with the rounding validators of `ProviderResponse` in schemas.py). -/
def mkProviderResponse (p : ProviderRow) (avg : Option ℚ) (d : ℚ) : ProviderResponse :=
  { provider_id := p.provider_id
    provider_name := p.provider_name
    provider_city := p.provider_city
    provider_state := p.provider_state
    provider_zip_code := p.provider_zip_code
    ms_drg_definition := p.ms_drg_definition
    total_discharges := p.total_discharges.getD 0
    average_covered_charges := round2 ((p.average_covered_charges.getD 0))
    average_total_payments := round2 ((p.average_total_payments.getD 0))
    average_medicare_payments := round2 ((p.average_medicare_payments.getD 0))
    average_rating :=
      match avg with
      | some a => if a = 0 then none else some (round1 a)
      | none => none
    distance_km := some (round2 d) }

/-- The per-row radius filter of search_providers (lines 93-115): skip rows
with falsy coordinates, compute the distance, keep the row iff
`distance <= radius_km`. -/
def rowToResponse (dist : ℚ → ℚ → ℚ → ℚ → ℚ) (slat slng : ℚ) (radius_km : ℤ)
    (r : ProviderRow × Option ℚ) : Option ProviderResponse :=
  if truthyF r.1.latitude && truthyF r.1.longitude then
    let d := dist slat slng (r.1.latitude.getD 0) (r.1.longitude.getD 0)
    if d ≤ (radius_km : ℚ) then some (mkProviderResponse r.1 r.2 d) else none
  else none

/-- The `filtered_providers` list of search_providers. -/
def radiusFiltered (dist : ℚ → ℚ → ℚ → ℚ → ℚ) (slat slng : ℚ) (radius_km : ℤ)
    (rows : List (ProviderRow × Option ℚ)) : List ProviderResponse :=
  rows.filterMap (rowToResponse dist slat slng radius_km)

/-- `ProviderService.search_providers` (provider_service.py lines 51-126).
`dist` models `_calculate_distance` (haversine), `lg` models `math.log`,
`fetch` models executing the built query against the data store (DRG
filtering and rating averaging happen inside the store); a raised data-store
error is the `Except.error` case, which the surrounding `try`/`except`
converts to the empty list.  The sort is Python's stable descending sort by
the composite score; `[:limit]` is `take`. -/
def search_providers (h : String → ℤ) (dbzip : String → Option (ℚ × ℚ))
    (dist : ℚ → ℚ → ℚ → ℚ → ℚ) (lg : ℕ → ℚ)
    (fetch : List DrgCond → Except String (List (ProviderRow × Option ℚ)))
    (drg zip_code : String) (radius_km : ℤ) (limit : ℕ) : List ProviderResponse :=
  match fetch (build_drg_conditions drg) with
  | .error _ => []
  | .ok rows =>
    ((radiusFiltered dist (searchCenter h dbzip zip_code).1
        (searchCenter h dbzip zip_code).2 radius_km rows).mergeSort (fun a b =>
      calculate_composite_score lg b ≤ calculate_composite_score lg a)).take limit

/-! ## AIService: intent classification (ai_service.py) -/

/-- `AIService.intent_patterns` (ai_service.py lines 54-60), in dict insertion
order, which is the iteration order of `_detect_query_intent`'s loop. -/
def intent_patterns : List (String × List String) := [
  ("cheapest", ["cheapest", "lowest cost", "most affordable", "least expensive", "budget"]),
  ("best_rated", ["best rated", "highest rated", "top rated", "best quality", "highest quality"]),
  ("nearest", ["nearest", "closest", "nearby", "close to", "near me"]),
  ("comparison", ["compare", "versus", "vs", "difference between"]),
  ("value", ["best value", "value for money", "cost effective", "bang for buck"])]

/-- `AIService._detect_query_intent` (ai_service.py lines 151-167): first
keyword group that matches wins, then the secondary keyword checks, with
`"value"` as the final default. -/
def detect_query_intent (question : String) : String :=
  match intent_patterns.find?
      (fun grp => grp.2.any (fun k => strContains (strLower question) k)) with
  | some grp => grp.1
  | none =>
    if ["cost", "price", "cheap", "affordable"].any
        (fun w => strContains (strLower question) w) then "cheapest"
    else if ["rating", "quality", "best"].any
        (fun w => strContains (strLower question) w) then "best_rated"
    else if ["near", "close", "distance"].any
        (fun w => strContains (strLower question) w) then "nearest"
    else "value"

/-- True when any keyword of any group, or any secondary fallback keyword,
occurs in the lowered question (the negation is exactly the situation in
which `_detect_query_intent` falls through to the `"value"` default). -/
def intentAnyKeywordHit (question : String) : Bool :=
  intent_patterns.any (fun grp => grp.2.any (fun k => strContains (strLower question) k))
    || ["cost", "price", "cheap", "affordable"].any (fun w => strContains (strLower question) w)
    || ["rating", "quality", "best"].any (fun w => strContains (strLower question) w)
    || ["near", "close", "distance"].any (fun w => strContains (strLower question) w)

/-! ## AIService._generate_sql: markdown-fence cleanup

`_generate_sql` (ai_service.py lines 610-616) post-processes the completion
text with `.strip()`, three `re.sub` calls, and `.strip()` again:
  1. `re.sub(r'^X\s*', '', q, flags=re.IGNORECASE | re.MULTILINE)` where `X`
     is three backticks followed by `sql`;
  2. the same with `X` just three backticks (`re.MULTILINE`);
  3. `re.sub(r'\s*X$', '', q, flags=re.MULTILINE)` with `X` three backticks.
The functions below implement those substitutions exactly: a `^`
(respectively `$`) position is the string start (end) or a position right
after (before) a newline; `\s*` is a greedy whitespace run, and because no
whitespace character is a backtick, greedy matching with backtracking
degenerates to "maximal run then literal".  Scanning is left to right over
original positions, as `re.sub` does.  The `Nat` fuel is always at least
the remaining length, and each step consumes at least one character. -/

/-- Drop a whitespace run, tracking whether the last dropped char was `'\n'`
(that decides whether the position after the match is a `^` position). -/
def dropWsTrackNl : List Char → Bool → List Char × Bool
  | [], nl => ([], nl)
  | c :: t, nl => if isPyWs c then dropWsTrackNl t (c = '\n') else (c :: t, nl)

/-- Try to match three backticks + `sql` (case-insensitive) + `\s*` at the
current position; on success return the rest and the `^`-status after it. -/
def matchFenceSql : List Char → Option (List Char × Bool)
  | '`' :: '`' :: '`' :: a :: b :: c :: rest =>
    if a.toLower = 's' && b.toLower = 'q' && c.toLower = 'l' then
      some (dropWsTrackNl rest false)
    else none
  | _ => none

/-- Try to match three backticks + `\s*` at the current position. -/
def matchFence3 : List Char → Option (List Char × Bool)
  | '`' :: '`' :: '`' :: rest => some (dropWsTrackNl rest false)
  | _ => none

/-- One left-to-right pass removing every line-start occurrence found by `m`. -/
def subLineStartAux (m : List Char → Option (List Char × Bool)) :
    ℕ → Bool → List Char → List Char
  | 0, _, s => s
  | _ + 1, _, [] => []
  | fuel + 1, atLS, c :: t =>
    if atLS then
      match m (c :: t) with
      | some (rest, nl) => subLineStartAux m fuel nl rest
      | none => c :: subLineStartAux m fuel (c = '\n') t
    else c :: subLineStartAux m fuel (c = '\n') t

/-- The first `re.sub` (strip leading code fences marked `sql`). -/
def subFenceSql (s : List Char) : List Char :=
  subLineStartAux matchFenceSql (s.length + 1) true s

/-- The second `re.sub` (strip remaining leading code fences). -/
def subFence3 (s : List Char) : List Char :=
  subLineStartAux matchFence3 (s.length + 1) true s

/-- Try to match `\s*` + three backticks + end-of-line at this position;
on success return the rest (the `$` is zero-width, the newline stays). -/
def matchTrailFence (s : List Char) : Option (List Char) :=
  match s.dropWhile isPyWs with
  | '`' :: '`' :: '`' :: r2 =>
    match r2 with
    | [] => some []
    | '\n' :: _ => some r2
    | _ => none
  | _ => none

/-- One left-to-right pass removing every `\s*`+fence+end-of-line occurrence. -/
def subTrailFenceAux : ℕ → List Char → List Char
  | 0, s => s
  | _ + 1, [] => []
  | fuel + 1, c :: t =>
    match matchTrailFence (c :: t) with
    | some rest => subTrailFenceAux fuel rest
    | none => c :: subTrailFenceAux fuel t

/-- The third `re.sub` (strip trailing code fences). -/
def subTrailFence (s : List Char) : List Char := subTrailFenceAux (s.length + 1) s

/-- The whole cleanup of `_generate_sql` (ai_service.py lines 610-616). -/
def cleanSqlText (raw : String) : String :=
  pyStrip ⟨subTrailFence (subFence3 (subFenceSql (pyStrip raw).data))⟩

/-! ## AIService._generate_sql: validation -/

/-- The mutation keywords rejected by `_generate_sql` (ai_service.py line 624). -/
def dangerous_keywords : List String :=
  ["DROP", "DELETE", "UPDATE", "INSERT", "ALTER", "CREATE", "TRUNCATE"]

/-- The deterministic tail of `AIService._generate_sql` (ai_service.py lines
610-630) as a function of the completion service's returned text: clean up
markdown fences and whitespace, reject the result unless its uppercase form
starts with `SELECT`, reject it if it contains any mutation keyword, and
otherwise return it.  `process_question` (lines 80-93) executes a query
against the data store exactly when this returns `some`. -/
def generate_sql (raw : String) : Option String :=
  let sql_query := cleanSqlText raw
  if !(strStartsWith (strUpper sql_query) "SELECT") then none
  else if dangerous_keywords.any (fun k => strContains (strUpper sql_query) k) then none
  else some sql_query

/-! ## Helper lemmas and fixtures -/

/-- Rounding to the nearest integer is monotone on `ℚ`. -/
theorem round_mono_q {x y : ℚ} (hxy : x ≤ y) : round x ≤ round y := by
  rw [round_eq, round_eq]
  exact Int.floor_mono (by linarith)

/-- Rounding to two decimals cannot push a value past an integer bound. -/
theorem round2_le_int {d : ℚ} {n : ℤ} (hd : d ≤ (n : ℚ)) : round2 d ≤ (n : ℚ) := by
  unfold round2
  have h1 : round (100 * d) ≤ round (100 * (n : ℚ)) := round_mono_q (by linarith)
  have h2 : round (100 * (n : ℚ)) = 100 * n := by
    rw [show (100 : ℚ) * (n : ℚ) = ((100 * n : ℤ) : ℚ) by push_cast; ring, round_intCast]
  rw [h2] at h1
  rw [div_le_iff₀ (by norm_num)]
  calc ((round (100 * d) : ℤ) : ℚ) ≤ ((100 * n : ℤ) : ℚ) := by exact_mod_cast h1
    _ = (n : ℚ) * 100 := by push_cast; ring

/-- The zero function standing in for `math.log` in concrete witnesses
(only its value at `1`, namely `log 1 = 0`, is ever used). -/
def lgZero : ℕ → ℚ := fun _ => 0

/-- A concrete provider row used in witnesses. -/
def rowA : ProviderRow :=
  { provider_id := "330101", provider_name := "HOSPITAL A", provider_city := "NEW YORK"
    provider_state := "NY", provider_zip_code := "10001"
    ms_drg_definition := "470 - MAJOR JOINT REPLACEMENT"
    total_discharges := some 10, average_covered_charges := some 50000
    average_total_payments := some 42000, average_medicare_payments := some 40000
    latitude := some 1, longitude := some 1 }

/-- The `SearchResult` of the spec's concrete scoring scenario:
cost `1000`, rating `10`, distance `0`, volume `0`. -/
def respC2 : ProviderResponse :=
  { provider_id := "330123", provider_name := "HOSPITAL B", provider_city := "NEW YORK"
    provider_state := "NY", provider_zip_code := "10001"
    ms_drg_definition := "470 - MAJOR JOINT REPLACEMENT"
    total_discharges := 0, average_covered_charges := 1000
    average_total_payments := 0, average_medicare_payments := 0
    average_rating := some 10, distance_km := some 0 }

/-- A constant distance function used in witnesses. -/
def distConst : ℚ → ℚ → ℚ → ℚ → ℚ := fun _ _ _ _ => 50

/-! ## Claim C2 -/

/-- Claim C2: for a record with cost 1000, rating 10, distance 0 and volume 0,
the component scores are `cost_score = 1000`, `rating_score = 150`,
`distance_score = 100`, `volume_score = 0`, and the composite score with
weights 0.40/0.35/0.15/0.10 is exactly `467.5`.  The hypothesis `lg 1 = 0`
pins the one value of `math.log` the computation touches (`log 1 = 0`). -/
theorem C2_concrete_composite_score (lg : ℕ → ℚ) (hlg : lg 1 = 0) :
    cost_score respC2.average_covered_charges = 1000
    ∧ rating_score respC2.average_rating = 150
    ∧ distance_score respC2.distance_km = 100
    ∧ volume_score lg respC2.total_discharges = 0
    ∧ calculate_composite_score lg respC2 = 467.5 := by
  have hc : cost_score respC2.average_covered_charges = 1000 := by
    norm_num [cost_score, pyOrQ, respC2]
  have hr : rating_score respC2.average_rating = 150 := by
    norm_num [rating_score, pyOrOptQ, respC2]
  have hd : distance_score respC2.distance_km = 100 := by
    norm_num [distance_score, pyOrOptQ, respC2]
  have hv : volume_score lg respC2.total_discharges = 0 := by
    norm_num [volume_score, respC2, hlg]
  refine ⟨hc, hr, hd, hv, ?_⟩
  unfold calculate_composite_score
  rw [hc, hr, hd, hv]
  norm_num

/-- Witness for C2 at the concrete log function `lgZero`. -/
theorem C2_concrete_composite_score_witness :
    cost_score respC2.average_covered_charges = 1000
    ∧ rating_score respC2.average_rating = 150
    ∧ distance_score respC2.distance_km = 100
    ∧ volume_score lgZero respC2.total_discharges = 0
    ∧ calculate_composite_score lgZero respC2 = 467.5 :=
  C2_concrete_composite_score lgZero rfl

/-! ## Claim C6 -/

/-- Claim C6: if the data-store fetch raises (the `Except.error` case), the
orchestrator's `search_providers` returns the empty list; the surrounding
`try`/`except` never lets the exception propagate. -/
theorem C6_store_error_yields_empty (h : String → ℤ)
    (dbzip : String → Option (ℚ × ℚ)) (dist : ℚ → ℚ → ℚ → ℚ → ℚ) (lg : ℕ → ℚ)
    (fetch : List DrgCond → Except String (List (ProviderRow × Option ℚ)))
    (drg zip_code : String) (radius_km : ℤ) (limit : ℕ) (e : String)
    (hf : fetch (build_drg_conditions drg) = Except.error e) :
    search_providers h dbzip dist lg fetch drg zip_code radius_km limit = [] := by
  unfold search_providers
  rw [hf]

/-- Witness for C6 with a concrete always-failing store. -/
theorem C6_store_error_yields_empty_witness :
    search_providers (fun _ => 0) (fun _ => none) distConst lgZero
      (fun _ => Except.error "connection refused") "470" "10001" 50 10 = [] :=
  C6_store_error_yields_empty (fun _ => 0) (fun _ => none) distConst lgZero
    (fun _ => Except.error "connection refused") "470" "10001" 50 10
    "connection refused" rfl

/-! ## Claim C10 -/

/-- Rows whose latitude or longitude is `0.0` or absent fail the truthiness
test and produce no response. -/
theorem rowToResponse_falsy_none (dist : ℚ → ℚ → ℚ → ℚ → ℚ) (slat slng : ℚ)
    (radius_km : ℤ) (p : ProviderRow) (a : Option ℚ)
    (hbad : p.latitude = some 0 ∨ p.longitude = some 0
      ∨ p.latitude = none ∨ p.longitude = none) :
    rowToResponse dist slat slng radius_km (p, a) = none := by
  unfold rowToResponse
  rcases hbad with hb | hb | hb | hb <;> simp [truthyF, hb]

/-- Claim C10: a provider record whose latitude or longitude equals exactly
`0.0` (or is absent) is excluded from the search results for every query, ZIP
code, radius and limit — removing such a row from the fetched rows leaves
the output unchanged, because coordinate presence is tested by numeric
truthiness (`if provider.latitude and provider.longitude`). -/
theorem C10_zero_coordinate_excluded (h : String → ℤ)
    (dbzip : String → Option (ℚ × ℚ)) (dist : ℚ → ℚ → ℚ → ℚ → ℚ) (lg : ℕ → ℚ)
    (drg zip_code : String) (radius_km : ℤ) (limit : ℕ)
    (pre post : List (ProviderRow × Option ℚ)) (p : ProviderRow) (a : Option ℚ)
    (hbad : p.latitude = some 0 ∨ p.longitude = some 0
      ∨ p.latitude = none ∨ p.longitude = none) :
    search_providers h dbzip dist lg (fun _ => Except.ok (pre ++ (p, a) :: post))
        drg zip_code radius_km limit
      = search_providers h dbzip dist lg (fun _ => Except.ok (pre ++ post))
        drg zip_code radius_km limit := by
  unfold search_providers
  dsimp only
  have hfil : ∀ slat slng : ℚ,
      radiusFiltered dist slat slng radius_km (pre ++ (p, a) :: post)
        = radiusFiltered dist slat slng radius_km (pre ++ post) := by
    intro slat slng
    unfold radiusFiltered
    rw [List.filterMap_append, List.filterMap_append, List.filterMap_cons,
      rowToResponse_falsy_none dist slat slng radius_km p a hbad]
  rw [hfil]

/-- Witness for C10: a concrete row at latitude `0.0` does not change the
output of a concrete search. -/
theorem C10_zero_coordinate_excluded_witness :
    search_providers (fun _ => 0) (fun _ => none) distConst lgZero
      (fun _ => Except.ok ([] ++ ({ rowA with latitude := some 0 }, none) :: [(rowA, some 8)]))
      "470" "10001" 50 10
    = search_providers (fun _ => 0) (fun _ => none) distConst lgZero
      (fun _ => Except.ok ([] ++ [(rowA, some 8)])) "470" "10001" 50 10 :=
  C10_zero_coordinate_excluded (fun _ => 0) (fun _ => none) distConst lgZero
    "470" "10001" 50 10 [] [(rowA, some 8)] { rowA with latitude := some 0 } none
    (Or.inl rfl)

/-! ## Claim C1 -/

/-- Claim C1: (a) every `SearchResult` returned by `search_providers` carries
a distance at most `radius_km` (the stored `distance_km` is the rounded
distance, and rounding to two decimals cannot cross the integer radius
bound); (b) boundary inclusivity: a fetched record with truthy coordinates
lying at exactly `radius_km` from the search center passes the radius filter
(`distance <= radius_km` is non-strict). -/
theorem C1_radius_filter (h : String → ℤ) (dbzip : String → Option (ℚ × ℚ))
    (dist : ℚ → ℚ → ℚ → ℚ → ℚ) (lg : ℕ → ℚ)
    (fetch : List DrgCond → Except String (List (ProviderRow × Option ℚ)))
    (drg zip_code : String) (radius_km : ℤ) (limit : ℕ) :
    (∀ r ∈ search_providers h dbzip dist lg fetch drg zip_code radius_km limit,
      ∃ x, r.distance_km = some x ∧ x ≤ (radius_km : ℚ))
    ∧ (∀ (slat slng : ℚ) (rows : List (ProviderRow × Option ℚ))
        (row : ProviderRow × Option ℚ), row ∈ rows →
        truthyF row.1.latitude = true → truthyF row.1.longitude = true →
        dist slat slng (row.1.latitude.getD 0) (row.1.longitude.getD 0) = (radius_km : ℚ) →
        mkProviderResponse row.1 row.2 (radius_km : ℚ)
          ∈ radiusFiltered dist slat slng radius_km rows) := by
  constructor
  · intro r hr
    unfold search_providers at hr
    split at hr
    · simp at hr
    · have h1 : r ∈ List.mergeSort _ _ := List.take_subset _ _ hr
      have h2 := List.mem_mergeSort.mp h1
      unfold radiusFiltered at h2
      rw [List.mem_filterMap] at h2
      obtain ⟨row, _, hres⟩ := h2
      unfold rowToResponse at hres
      split at hres
      · dsimp only at hres
        split at hres
        · rename_i hle
          obtain rfl : mkProviderResponse row.1 row.2 _ = r := Option.some_injective _ hres
          exact ⟨round2 _, rfl, round2_le_int hle⟩
        · exact absurd hres (by simp)
      · exact absurd hres (by simp)
  · intro slat slng rows row hmem hlat hlng hdist
    unfold radiusFiltered
    rw [List.mem_filterMap]
    refine ⟨row, hmem, ?_⟩
    unfold rowToResponse
    rw [hlat, hlng, hdist]
    simp

/-- Witness for C1: a concrete row at distance exactly the radius (under a
constant distance function) is included by the radius filter. -/
theorem C1_radius_filter_witness :
    mkProviderResponse rowA (some 8) ((50 : ℤ) : ℚ)
      ∈ radiusFiltered distConst 0 0 50 [(rowA, some 8)] :=
  (C1_radius_filter (fun _ => 0) (fun _ => none) distConst lgZero
      (fun _ => Except.ok [(rowA, some 8)]) "470" "10001" 50 10).2
    0 0 [(rowA, some 8)] (rowA, some 8) (by simp) (by decide) (by decide)
    (by simp [distConst])

/-! ## Claim C3 -/

/-- Counterexample to claim C3 as stated: for the numeric query `"470"` the
OR-combination of the built conditions DOES match `"4700 - Something Else"`,
because besides the two delimiter-bounded patterns the code also appends the
bare substring condition `.contains("470")`. -/
theorem C3_counterexample :
    (build_drg_conditions "470").any (condMatches "4700 - Something Else") = true := by
  decide

/-- Claim C3 (amended): for query `"470"` the OR-combination matches
`"470 - Major Joint Replacement"`; the two delimiter-bounded conditions
(`ilike "470 %"`, `ilike "470-%"`) individually reject
`"4700 - Something Else"`, but the substring-contains fallback accepts it,
so the OR-combination matches `"4700 - Something Else"` as well. -/
theorem C3_numeric_query_matching :
    (build_drg_conditions "470").any (condMatches "470 - Major Joint Replacement") = true
    ∧ condMatches "4700 - Something Else" (.ilikeStart "470 ") = false
    ∧ condMatches "4700 - Something Else" (.ilikeStart "470-") = false
    ∧ condMatches "4700 - Something Else" (.containsRaw "470") = true
    ∧ (build_drg_conditions "470").any (condMatches "4700 - Something Else") = true := by
  refine ⟨by decide, by decide, by decide, by decide, by decide⟩

/-! ## Claim C9 -/

/-- Counterexample to claim C9 as stated: the query `"ab"` is non-empty and
not whitespace, yet the condition builder returns the empty set, because a
non-numeric query contributes conditions only for tokens longer than two
characters. -/
theorem C9_counterexample :
    build_drg_conditions "ab" = [] ∧ pyStrip "ab" ≠ "" := by
  exact ⟨rfl, by decide⟩

/-- Claim C9 (amended): the condition builder returns the empty set exactly
when the query is not entirely numeric and every whitespace-separated token
of the lowered, stripped query has length at most two (which includes every
empty or all-whitespace query); otherwise it returns at least one
text-match predicate. -/
theorem C9_empty_conditions_iff (drg : String) :
    build_drg_conditions drg = []
      ↔ (isdigitB drg = false
          ∧ ∀ w ∈ pySplit (pyStrip (strLower drg)), w.length ≤ 2) := by
  unfold build_drg_conditions
  split
  · rename_i hd
    simp [hd]
  · rename_i hd
    rw [List.flatMap_eq_nil_iff]
    constructor
    · intro hall
      refine ⟨by simpa using hd, ?_⟩
      intro w hw
      by_contra hlen
      have hfw := hall w hw
      rw [if_pos (by omega)] at hfw
      simp at hfw
    · rintro ⟨-, hall⟩ w hw
      rw [if_neg (by have := hall w hw; omega)]

/-- Witness for C9 (amended), reading the equivalence left to right on the
concrete empty-set query `"ab"`. -/
theorem C9_empty_conditions_iff_witness :
    isdigitB "ab" = false ∧ ∀ w ∈ pySplit (pyStrip (strLower "ab")), w.length ≤ 2 :=
  (C9_empty_conditions_iff "ab").mp rfl

/-! ## Claim C7 -/

/-- The five intent labels `_detect_query_intent` can actually return. -/
def intent_names : List String :=
  ["cheapest", "best_rated", "nearest", "comparison", "value"]

/-- Counterexample to claim C7 as stated: the classifier returns
`"comparison"` — a fifth label outside the claimed four-element set — for
the question `"compare"`. -/
theorem C7_counterexample :
    detect_query_intent "compare" = "comparison"
    ∧ "comparison" ∉ (["cheapest", "best_rated", "nearest", "value"] : List String) := by
  exact ⟨rfl, by decide⟩

/-- Claim C7 (amended): for every question the intent classifier returns one
of exactly the five labels `cheapest`, `best_rated`, `nearest`, `comparison`,
`value`, and returns the default `value` whenever no keyword group and no
secondary fallback keyword occurs in the question. -/
theorem C7_intent_classification (q : String) :
    detect_query_intent q ∈ intent_names
    ∧ (intentAnyKeywordHit q = false → detect_query_intent q = "value") := by
  constructor
  · unfold detect_query_intent
    split
    · rename_i grp hf
      have hmem := List.mem_of_find?_eq_some hf
      have h5 : grp.1 = "cheapest" ∨ grp.1 = "best_rated" ∨ grp.1 = "nearest"
          ∨ grp.1 = "comparison" ∨ grp.1 = "value" := by
        simp only [intent_patterns, List.mem_cons, List.not_mem_nil, or_false] at hmem
        rcases hmem with h | h | h | h | h <;> rw [h] <;> simp
      rcases h5 with h | h | h | h | h <;> rw [h] <;> simp [intent_names]
    · split_ifs <;> simp [intent_names]
  · intro hno
    unfold intentAnyKeywordHit at hno
    simp only [Bool.or_eq_false_iff] at hno
    obtain ⟨⟨⟨hgr, hc⟩, hr⟩, hn⟩ := hno
    have hf : intent_patterns.find?
        (fun grp => grp.2.any (fun k => strContains (strLower q) k)) = none := by
      rw [List.find?_eq_none]
      intro x hx
      rw [List.any_eq_false] at hgr
      simp [hgr x hx]
    unfold detect_query_intent
    rw [hf]
    simp only [hc, hr, hn]
    simp

/-- Witness for C7 (amended) on a question hitting no keyword at all. -/
theorem C7_intent_classification_witness :
    detect_query_intent "hello" ∈ intent_names
    ∧ detect_query_intent "hello" = "value" :=
  ⟨(C7_intent_classification "hello").1, (C7_intent_classification "hello").2 rfl⟩

/-! ## Claim C8 -/

/-- `respC2` with cost 500. -/
def respC8a : ProviderResponse := { respC2 with average_covered_charges := 500 }

/-- `respC2` with cost 800. -/
def respC8b : ProviderResponse := { respC2 with average_covered_charges := 800 }

/-- Counterexample to claim C8 as stated: the costs 500 < 800 differ only in
the cost field, yet both floor to 1000 inside `cost_score`, so the cost
scores — and hence the composite scores — are equal, not strictly ordered. -/
theorem C8_counterexample :
    (500 : ℚ) < 800
    ∧ respC8a.average_rating = respC8b.average_rating
    ∧ respC8a.distance_km = respC8b.distance_km
    ∧ respC8a.total_discharges = respC8b.total_discharges
    ∧ cost_score respC8a.average_covered_charges
      = cost_score respC8b.average_covered_charges
    ∧ calculate_composite_score lgZero respC8a
      = calculate_composite_score lgZero respC8b := by
  have hcs : cost_score respC8a.average_covered_charges
      = cost_score respC8b.average_covered_charges := by
    norm_num [cost_score, pyOrQ, respC8a, respC8b, respC2, max_def]
  refine ⟨by norm_num, rfl, rfl, rfl, hcs, ?_⟩
  unfold calculate_composite_score
  rw [show respC8a.average_rating = respC8b.average_rating from rfl,
    show respC8a.distance_km = respC8b.distance_km from rfl,
    show respC8a.total_discharges = respC8b.total_discharges from rfl, hcs]

/-- Claim C8 (amended): holding rating, distance and volume fixed, for costs
`0 < c1 < c2` with `c2` above the 1000 floor, the cost score at `c1` is
strictly greater than at `c2`, and therefore so is the composite score.
(The restrictions are forced by the code: a cost of `0` is falsy and is
replaced by 50000, and any two costs at most 1000 floor to the same
denominator.) -/
theorem C8_cost_monotonicity (lg : ℕ → ℚ) (base : ProviderResponse) (c1 c2 : ℚ)
    (h1 : 0 < c1) (h12 : c1 < c2) (h2 : 1000 < c2) :
    cost_score c2 < cost_score c1
    ∧ calculate_composite_score lg { base with average_covered_charges := c2 }
      < calculate_composite_score lg { base with average_covered_charges := c1 } := by
  have hcs : cost_score c2 < cost_score c1 := by
    unfold cost_score pyOrQ
    rw [if_neg (by linarith), if_neg (by linarith)]
    have hm2 : max c2 1000 = c2 := max_eq_left (by linarith)
    have hm1 : max c1 1000 < c2 := by
      rcases le_or_lt c1 1000 with hle | hlt
      · rw [max_eq_right hle]; linarith
      · rw [max_eq_left hlt.le]; linarith
    rw [hm2]
    exact div_lt_div_of_pos_left (by norm_num)
      (lt_of_lt_of_le (by norm_num) (le_max_right c1 1000)) hm1
  refine ⟨hcs, ?_⟩
  unfold calculate_composite_score
  dsimp only
  linarith [hcs]

/-- Witness for C8 (amended) at concrete costs 2000 < 4000. -/
theorem C8_cost_monotonicity_witness :
    cost_score 4000 < cost_score 2000
    ∧ calculate_composite_score lgZero { respC2 with average_covered_charges := 4000 }
      < calculate_composite_score lgZero { respC2 with average_covered_charges := 2000 } :=
  C8_cost_monotonicity lgZero respC2 2000 4000 (by norm_num) (by norm_num) (by norm_num)

/-! ## Claim C5 -/

/-- Counterexample to claim C5 as stated: for ZIP `"99999"` (absent from the
static table, no stored record, no covered prefix) the resolver does NOT
return the fixed area centroid `(42.9538, -75.5268)`; under the concrete
hash function that maps every string to `0`, it returns the jittered point
`(40.9538, -77.5268)`, two degrees away on each axis. -/
theorem C5_counterexample :
    get_zip_coordinates (fun _ => 0) (fun _ => none) "99999" = (40.9538, -77.5268)
    ∧ ((40.9538 : ℚ), (-77.5268 : ℚ)) ≠ ((42.9538 : ℚ), (-75.5268 : ℚ)) := by
  constructor
  · have e1 : get_zip_coordinates (fun _ => 0) (fun _ => none) "99999"
        = regionalFallback (fun _ => 0) "99999" := rfl
    rw [e1]
    unfold regionalFallback
    rw [show strStartsWith "99999" "10" = false from rfl,
      show strStartsWith "99999" "11" = false from rfl,
      show strStartsWith "99999" "12" = false from rfl,
      show strStartsWith "99999" "13" = false from rfl,
      show strStartsWith "99999" "14" = false from rfl]
    have hj : hashJitter (fun _ => 0) "99999" 200 = -100 := by
      unfold hashJitter
      norm_num
    rw [if_neg (by simp), if_neg (by simp), if_neg (by simp), if_neg (by simp),
      if_neg (by simp), hj]
    norm_num
  · intro hcontra
    have := congrArg Prod.fst hcontra
    norm_num at this

/-- Claim C5 (amended): for a ZIP absent from the static table, with no
usable stored coordinates and no covered regional prefix, the resolver
returns the final-fallback value: the covered-area centroid
`(42.9538, -75.5268)` offset on both axes by the jitter
`(hash(zip) % 200 - 100) * 0.02`, hence always within 2 degrees of the
centroid; the result is a pure function of the hash function and the ZIP
string, so repeated calls in one process (fixed `h`) return the same
coordinates. -/
theorem C5_final_fallback (h : String → ℤ) (dbzip : String → Option (ℚ × ℚ))
    (zip : String) (htab : zipTableLookup zip = none) (hdb : dbzip zip = none)
    (h10 : strStartsWith zip "10" = false) (h11 : strStartsWith zip "11" = false)
    (h12 : strStartsWith zip "12" = false) (h13 : strStartsWith zip "13" = false)
    (h14 : strStartsWith zip "14" = false) :
    get_zip_coordinates h dbzip zip
      = (42.9538 + hashJitter h zip 200 * 0.02, -75.5268 + hashJitter h zip 200 * 0.02)
    ∧ |(get_zip_coordinates h dbzip zip).1 - 42.9538| ≤ 2
    ∧ |(get_zip_coordinates h dbzip zip).2 - (-75.5268)| ≤ 2 := by
  have heq : get_zip_coordinates h dbzip zip
      = (42.9538 + hashJitter h zip 200 * 0.02, -75.5268 + hashJitter h zip 200 * 0.02) := by
    unfold get_zip_coordinates
    rw [htab, hdb]
    unfold regionalFallback
    rw [h10, h11, h12, h13, h14]
    simp
  have hjb : -100 ≤ hashJitter h zip 200 ∧ hashJitter h zip 200 ≤ 99 := by
    have hlo : (0 : ℤ) ≤ (h zip).emod 200 := Int.emod_nonneg _ (by norm_num)
    have hhi : (h zip).emod 200 < 200 := Int.emod_lt_of_pos _ (by norm_num)
    unfold hashJitter
    constructor
    · have hz : (-100 : ℤ) ≤ (h zip).emod 200 - 200 / 2 := by omega
      exact_mod_cast hz
    · have hz : (h zip).emod 200 - 200 / 2 ≤ 99 := by omega
      exact_mod_cast hz
  refine ⟨heq, ?_, ?_⟩
  · rw [heq]
    rw [abs_le]
    constructor <;> nlinarith [hjb.1, hjb.2]
  · rw [heq]
    rw [abs_le]
    constructor <;> nlinarith [hjb.1, hjb.2]

/-- Witness for C5 (amended) at ZIP `"99999"` with the all-zero hash and an
empty store. -/
theorem C5_final_fallback_witness :
    get_zip_coordinates (fun _ => 0) (fun _ => none) "99999"
      = (42.9538 + hashJitter (fun _ => 0) "99999" 200 * 0.02,
         -75.5268 + hashJitter (fun _ => 0) "99999" 200 * 0.02)
    ∧ |(get_zip_coordinates (fun _ => 0) (fun _ => none) "99999").1 - 42.9538| ≤ 2
    ∧ |(get_zip_coordinates (fun _ => 0) (fun _ => none) "99999").2 - (-75.5268)| ≤ 2 :=
  C5_final_fallback (fun _ => 0) (fun _ => none) "99999" rfl rfl rfl rfl rfl rfl rfl

/-! ## Claim C4 -/

/-- Counterexample to claim C4 as stated: a completion text that does not
begin with `SELECT` (it begins with a markdown code fence) and contains no
mutation verb nevertheless makes `_generate_sql` return a query — the
begins-with-SELECT test is applied only after fence and whitespace
stripping, not to the raw completion text. -/
theorem C4_counterexample :
    generate_sql "```sql\nSELECT * FROM providers LIMIT 5\n```"
      = some "SELECT * FROM providers LIMIT 5"
    ∧ strStartsWith "```sql\nSELECT * FROM providers LIMIT 5\n```" "SELECT" = false
    ∧ strStartsWith (strUpper "```sql\nSELECT * FROM providers LIMIT 5\n```") "SELECT"
      = false := by
  exact ⟨rfl, rfl, rfl⟩

/-- Claim C4 (amended): the SELECT/mutation-keyword validation applies to the
completion text after markdown-fence and whitespace cleanup, so the
guarantee that holds is about the query actually produced: whenever
`_generate_sql` returns a query, that query begins with `SELECT`
(case-insensitively) and contains no mutation verb (DROP, DELETE, UPDATE,
INSERT, ALTER, CREATE, TRUNCATE, case-insensitively); `process_question`
executes only such returned queries, so no executed generated text can
contain a mutation verb or fail to begin with SELECT. -/
theorem C4_validated_sql_select_only (raw q : String)
    (hq : generate_sql raw = some q) :
    strStartsWith (strUpper q) "SELECT" = true
    ∧ (dangerous_keywords.any (fun k => strContains (strUpper q) k)) = false := by
  unfold generate_sql at hq
  dsimp only at hq
  split_ifs at hq with hsel hdanger
  · obtain rfl : cleanSqlText raw = q := Option.some_injective _ hq
    constructor
    · simpa using hsel
    · simpa using hdanger

/-- Witness for C4 (amended) on the accepted completion text `"SELECT 1"`. -/
theorem C4_validated_sql_select_only_witness :
    strStartsWith (strUpper "SELECT 1") "SELECT" = true
    ∧ (dangerous_keywords.any (fun k => strContains (strUpper "SELECT 1") k)) = false :=
  C4_validated_sql_select_only "SELECT 1" "SELECT 1" rfl

end HealthNav
